import Mathlib

/-!
Shallow embedding of the two source files of `brunoais/opaquelogin`
(`trashmail_api.py` and `failing_opaque_code.py`): JSON values, Python
dict operations, the HTTP request/response plumbing of the client, and
the base64 helpers, together with theorems checking the specification's
claims against them.

HTTP is modelled by an oracle `HttpRequest → Except PyExn HttpResponse`
standing for `session.post`: the oracle's answer is the server's
response (or the exception the post raises), and every method returns
the list of requests it actually posted alongside its Python result and
the mutated client state.
-/

/-- JSON values as produced by `response.json()` in Python
(`null` is Python `None`). -/
inductive Json where
  | null : Json
  | bool (b : Bool) : Json
  | num (n : Int) : Json
  | str (s : String) : Json
  | arr (xs : List Json) : Json
  | obj (fields : List (String × Json)) : Json

/-- Python dict lookup `d.get(k)` on an association list: first binding of
the key (the dicts built here keep keys unique). -/
def dictGet (d : List (String × Json)) (k : String) : Option Json :=
  match d with
  | [] => none
  | (k1, v1) :: t => if k1 = k then some v1 else dictGet t k

/-- Python dict assignment `d[k] = v`: replace the binding when the key is
present, append it otherwise. -/
def dictSet (d : List (String × Json)) (k : String) (v : Json) : List (String × Json) :=
  match d with
  | [] => [(k, v)]
  | (k1, v1) :: t => if k1 = k then (k, v) :: t else (k1, v1) :: dictSet t k v

/-- Python `d.update(e)` (also `\x7b**d, **e\x7d`): assign every binding of
`e` into `d`, entries of `e` overriding entries of `d`. -/
def dictUpdate (d e : List (String × Json)) : List (String × Json) :=
  e.foldl (fun acc p => dictSet acc p.1 p.2) d

/-- Python truthiness of a JSON value (`bool(x)`): `None`, `False`, `0`,
`""`, `[]` and `\x7b\x7d` are falsy, everything else truthy. -/
def Json.truthy : Json → Bool
  | .null => false
  | .bool b => b
  | .num n => n != 0
  | .str s => s != ""
  | .arr xs => xs.length != 0
  | .obj fields => fields.length != 0

/-- Python truthiness of an optional JSON value (Python `None` is falsy). -/
def jTruthy : Option Json → Bool
  | none => false
  | some j => j.truthy

/-- Python `s.startswith(p)`, modelled on the character lists. -/
def strStartsWith (s p : String) : Bool :=
  p.toList.isPrefixOf s.toList

/-- The Python exceptions the two modules raise or handle.
`tmApiError msg code` is `TrashMailAPIError(msg, error_code)` from
`trashmail_api.py`; the stored response object is not modelled since no
code path reads it back. -/
inductive PyExn where
  | tmApiError (msg : Json) (error_code : Option Json) : PyExn
  | valueError (msg : String) : PyExn
  | jsonDecodeError : PyExn
  | attributeError : PyExn
  | other (msg : String) : PyExn

/-- Whether an exception is (an instance of) `TrashMailAPIError`. -/
def PyExn.isTMApiError : PyExn → Bool
  | .tmApiError _ _ => true
  | _ => false

/-- A rough rendering of `str(e)`, used only to build the wrapped
"Login error: ..." message. -/
def PyExn.text : PyExn → String
  | .tmApiError (.str s) _ => s
  | .tmApiError _ _ => "TrashMailAPIError"
  | .valueError s => s
  | .jsonDecodeError => "JSONDecodeError"
  | .attributeError => "AttributeError"
  | .other s => s

/-- An HTTP POST as issued by `session.post(url, params=..., json=...)`. -/
structure HttpRequest where
  url : String
  params : List (String × Json)
  jsonBody : List (String × Json)

/-- An HTTP response as observed by this code: the only thing either
module reads from a response is `response.json()`, which returns the
parsed body or raises `JSONDecodeError`; `jsonBody = none` is the
latter case. -/
structure HttpResponse where
  jsonBody : Option Json

/-- `response.json()`: the parsed JSON body, or a raised
`requests.exceptions.JSONDecodeError`. -/
def HttpResponse.json (r : HttpResponse) : Except PyExn Json :=
  match r.jsonBody with
  | some j => .ok j
  | none => .error .jsonDecodeError

/-- The server (and network) as an oracle: what `session.post` returns —
or raises — for a given request. -/
def Oracle : Type := HttpRequest → Except PyExn HttpResponse

/-- `_safe_json(response)` (identical in `trashmail_api.py` lines 84-90
and `failing_opaque_code.py` lines 37-42): `try: return response.json()
except JSONDecodeError: return None`, any other exception propagating. -/
def safe_jsonE (r : HttpResponse) : Except PyExn (Option Json) :=
  match r.json with
  | .ok j => .ok (some j)
  | .error .jsonDecodeError => .ok none
  | .error e => .error e

/-- Python `result.get(key)` where `result` may not be a dict: attribute
lookup of `.get` on a non-dict raises `AttributeError`. -/
def Json.pyGet (j : Json) (key : String) : Except PyExn (Option Json) :=
  match j with
  | .obj fields => .ok (dictGet fields key)
  | _ => .error .attributeError

/-- Python `result.get(key, dflt)` where `result` may not be a dict. A
key bound to `null` yields `null`, not the default, exactly as in
Python. -/
def Json.pyGetD (j : Json) (key : String) (dflt : Json) : Except PyExn Json :=
  match j with
  | .obj fields => .ok ((dictGet fields key).getD dflt)
  | _ => .error .attributeError

namespace TMA

/-!
Embedding of `trashmail_api.py`. `requests.Session` objects carry no
state this module ever reads back, so a session is identified by a
serial number; `logout` installing `requests.Session()` becomes bumping
the serial.
-/

/-- The mutable state of a `TrashMailClient` (lines 67-72). -/
structure TrashMailClient where
  base_url : String
  lang : String
  session : Nat
  _authenticated : Bool
  _username : Option String

/-- `TrashMailClient.__init__(base_url, lang)`. -/
def TrashMailClient.init (base_url lang : String) : TrashMailClient :=
  { base_url := base_url, lang := lang, session := 0,
    _authenticated := false, _username := none }

/-- `TrashMailClient._build_url(cmd, api, **extra_params)` (lines 74-82). -/
def TrashMailClient._build_url (c : TrashMailClient) (cmd : String) (api : Bool)
    (extra_params : List (String × Json)) : String × List (String × Json) :=
  let params : List (String × Json) := [("lang", Json.str c.lang)]
  let params := if api then dictSet params "api" (Json.num 1) else params
  let params := if cmd != "" then dictSet params "cmd" (Json.str cmd) else params
  (c.base_url ++ "/", dictUpdate params extra_params)

/-- `is_authenticated` property (lines 258-261). -/
def TrashMailClient.is_authenticated (c : TrashMailClient) : Bool :=
  c._authenticated

/-- `username` property (lines 263-266). -/
def TrashMailClient.username (c : TrashMailClient) : Option String :=
  c._username

/-- The body of the `try:` block of `TrashMailClient.login`
(lines 131-159), before the `except` clauses. -/
def loginTry (c : TrashMailClient) (username password : String) (o : Oracle) :
    Except PyExn Bool × TrashMailClient × List HttpRequest :=
  let bu := c._build_url "login" true []
  let req : HttpRequest :=
    { url := bu.1, params := bu.2,
      jsonBody := [("fe-login-user", Json.str username),
                   ("fe-login-pass", Json.str password)] }
  match o req with
  | .error e => (.error e, c, [req])
  | .ok response =>
    match safe_jsonE response with
    | .error e => (.error e, c, [req])
    | .ok result =>
      match result with
      | none => (.error (.tmApiError (Json.str "Invalid response from server") none), c, [req])
      | some result =>
        if result.truthy = false then
          (.error (.tmApiError (Json.str "Invalid response from server") none), c, [req])
        else
          match result.pyGet "success" with
          | .error e => (.error e, c, [req])
          | .ok successV =>
            if jTruthy successV then
              let c1 := { c with _authenticated := true, _username := some username }
              match result.pyGetD "data" (Json.obj []) with
              | .error e => (.error e, c1, [req])
              | .ok data =>
                match data.pyGet "requires_2fa" with
                | .error e => (.error e, c1, [req])
                | .ok r2fa =>
                  if jTruthy r2fa then (.ok false, c1, [req])
                  else (.ok true, c1, [req])
            else
              match result.pyGetD "msg" (Json.str "Login failed"),
                    result.pyGet "error_code" with
              | .ok m, .ok ec => (.error (.tmApiError m ec), c, [req])
              | .error e, _ => (.error e, c, [req])
              | _, .error e => (.error e, c, [req])

/-- The `except` clauses of `login` (lines 161-165): `TrashMailAPIError`
is re-raised unchanged, anything else is wrapped as
`TrashMailAPIError(f"Login error: ...")`. -/
def wrapLoginExc (r : Except PyExn Bool) : Except PyExn Bool :=
  match r with
  | .ok b => .ok b
  | .error e =>
    if e.isTMApiError then .error e
    else .error (.tmApiError (Json.str ("Login error: " ++ e.text)) none)

/-- `TrashMailClient.login(username, password)` (lines 114-165). -/
def TrashMailClient.login (c : TrashMailClient) (username password : String)
    (o : Oracle) : Except PyExn Bool × TrashMailClient × List HttpRequest :=
  let t := loginTry c username password o
  (wrapLoginExc t.1, t.2.1, t.2.2)

/-- `TrashMailClient.login_with_pat(username, pat_token)` (lines 167-190). -/
def TrashMailClient.login_with_pat (c : TrashMailClient) (username pat_token : String)
    (o : Oracle) : Except PyExn Bool × TrashMailClient × List HttpRequest :=
  if strStartsWith pat_token "tmpat_" = false then
    (.error (.valueError "Invalid PAT format. Must start with tmpat_"), c, [])
  else
    c.login username pat_token o

/-- `TrashMailClient.api_call(cmd, **params)` (lines 192-223). -/
def TrashMailClient.api_call (c : TrashMailClient) (cmd : String)
    (params : List (String × Json)) (o : Oracle) :
    Except PyExn Json × TrashMailClient × List HttpRequest :=
  if c._authenticated = false then
    (.error (.tmApiError (Json.str "Not authenticated. Call login() first.") none), c, [])
  else
    let bu := c._build_url cmd true []
    let req : HttpRequest := { url := bu.1, params := bu.2, jsonBody := params }
    match o req with
    | .error e => (.error e, c, [req])
    | .ok response =>
      match safe_jsonE response with
      | .error e => (.error e, c, [req])
      | .ok result =>
        match result with
        | none => (.error (.tmApiError (Json.str "Invalid response from server") none), c, [req])
        | some result =>
          if result.truthy = false then
            (.error (.tmApiError (Json.str "Invalid response from server") none), c, [req])
          else
            match result.pyGetD "success" (Json.bool true) with
            | .error e => (.error e, c, [req])
            | .ok s =>
              if s.truthy = false then
                match result.pyGetD "msg" (Json.str "API call failed"),
                      result.pyGet "error_code" with
                | .ok m, .ok ec => (.error (.tmApiError m ec), c, [req])
                | .error e, _ => (.error e, c, [req])
                | _, .error e => (.error e, c, [req])
              else
                (.ok result, c, [req])

/-- `TrashMailClient.get_deas()` (lines 225-228). -/
def TrashMailClient.get_deas (c : TrashMailClient) (o : Oracle) :
    Except PyExn Json × TrashMailClient × List HttpRequest :=
  let t := c.api_call "read_dea" [] o
  match t.1 with
  | .error e => (.error e, t.2.1, t.2.2)
  | .ok result =>
    match result.pyGetD "data" (Json.arr []) with
    | .error e => (.error e, t.2.1, t.2.2)
    | .ok v => (.ok v, t.2.1, t.2.2)

/-- `TrashMailClient.create_dea(real_email, **options)` (lines 230-244). -/
def TrashMailClient.create_dea (c : TrashMailClient) (real_email : String)
    (options : List (String × Json)) (o : Oracle) :
    Except PyExn Json × TrashMailClient × List HttpRequest :=
  let params := dictUpdate [("realemail", Json.str real_email)] options
  let t := c.api_call "save_dea" params o
  match t.1 with
  | .error e => (.error e, t.2.1, t.2.2)
  | .ok result =>
    match result.pyGetD "data" (Json.obj []) with
    | .error e => (.error e, t.2.1, t.2.2)
    | .ok v => (.ok v, t.2.1, t.2.2)

/-- `TrashMailClient.logout()` (lines 246-256): the `api_call("logout")`
is wrapped in `try ... except Exception: pass`, then the flags are
cleared and a fresh `requests.Session()` is installed. -/
def TrashMailClient.logout (c : TrashMailClient) (o : Oracle) :
    Except PyExn Bool × TrashMailClient × List HttpRequest :=
  let t := c.api_call "logout" [] o
  let c1 := t.2.1
  let c2 := { c1 with _authenticated := false, _username := none,
                      session := c1.session + 1 }
  (.ok true, c2, t.2.2)

/-- `TrashMailClient.check_auth_methods(username)` (lines 92-112). -/
def TrashMailClient.check_auth_methods (c : TrashMailClient) (username : String)
    (o : Oracle) : (Json × Json × Json) × TrashMailClient × List HttpRequest :=
  let bu := c._build_url "opaque_check" true []
  let req : HttpRequest :=
    { url := bu.1, params := bu.2, jsonBody := [("username", Json.str username)] }
  let dflt := (Json.bool false, Json.bool false, Json.bool false)
  match o req with
  | .error _ => (dflt, c, [req])
  | .ok response =>
    match safe_jsonE response with
    | .error _ => (dflt, c, [req])
    | .ok resultOpt =>
      -- `result = self._safe_json(response) or \x7b\x7d`
      let result := match resultOpt with
        | some j => if j.truthy then j else Json.obj []
        | none => Json.obj []
      match result with
      | Json.obj fields =>
        (((dictGet fields "opaque_enabled").getD (Json.bool false),
          (dictGet fields "srp_enabled").getD (Json.bool false),
          (dictGet fields "migration_available").getD (Json.bool false)), c, [req])
      | _ => (dflt, c, [req])  -- `.get` on a truthy non-dict raises, caught by `except Exception`

/-- `is_pat_token(password)` (lines 308-310): the argument is typed
`str`, so the `isinstance` conjunct is identically true. -/
def is_pat_token (password : String) : Bool :=
  password != "" && strStartsWith password "tmpat_" && decide (6 < password.length)

/-- One client operation together with the server behaviour it runs
against: every public method of `TrashMailClient`. -/
inductive Op where
  | op_login (u p : String) (o : Oracle) : Op
  | op_login_with_pat (u t : String) (o : Oracle) : Op
  | op_api_call (cmd : String) (ps : List (String × Json)) (o : Oracle) : Op
  | op_get_deas (o : Oracle) : Op
  | op_create_dea (re : String) (opts : List (String × Json)) (o : Oracle) : Op
  | op_logout (o : Oracle) : Op
  | op_check_auth_methods (u : String) (o : Oracle) : Op

/-- Whether the operation is the login flow (`login`, or
`login_with_pat`, which performs its login by calling `login`). -/
def Op.isLoginOp : Op → Bool
  | .op_login _ _ _ => true
  | .op_login_with_pat _ _ _ => true
  | _ => false

/-- Whether the operation is `logout`. -/
def Op.isLogoutOp : Op → Bool
  | .op_logout _ => true
  | _ => false

/-- The client state after one operation. -/
def step (c : TrashMailClient) : Op → TrashMailClient
  | .op_login u p o => (c.login u p o).2.1
  | .op_login_with_pat u t o => (c.login_with_pat u t o).2.1
  | .op_api_call cmd ps o => (c.api_call cmd ps o).2.1
  | .op_get_deas o => (c.get_deas o).2.1
  | .op_create_dea re opts o => (c.create_dea re opts o).2.1
  | .op_logout o => (c.logout o).2.1
  | .op_check_auth_methods u o => (c.check_auth_methods u o).2.1

/-- The client state after a sequence of operations. -/
def run (c : TrashMailClient) : List Op → TrashMailClient
  | [] => c
  | op :: ops => run (step c op) ops

/-- The request `api_call cmd params` posts (derived form, used to state
claims): `_build_url(cmd)` with the extra parameters as the JSON body. -/
def apiRequest (c : TrashMailClient) (cmd : String) (ps : List (String × Json)) :
    HttpRequest :=
  { url := c.base_url ++ "/",
    params := [("lang", Json.str c.lang), ("api", Json.num 1), ("cmd", Json.str cmd)],
    jsonBody := ps }

/-- The request `login` posts (derived form, used to state claims). -/
def loginRequest (c : TrashMailClient) (username password : String) : HttpRequest :=
  { url := c.base_url ++ "/",
    params := [("lang", Json.str c.lang), ("api", Json.num 1), ("cmd", Json.str "login")],
    jsonBody := [("fe-login-user", Json.str username),
                 ("fe-login-pass", Json.str password)] }

end TMA

namespace FOC

/-!
Embedding of `failing_opaque_code.py`. The module-level constants
`API_BASE_URL` and `DEFAULT_LANG` are read from the environment when
the module loads; they are passed as explicit parameters here. The names
containing the protocol word (`opaque_check`, `pat_opaque_start`, ...)
are shortened to `opq` in identifiers; the strings sent on the wire are
kept verbatim.
-/

/-- A `requests.Session` of this module: the only state the module ever
writes into one is `session.cookies.set(...)`. -/
structure PySession where
  cookies : List (String × String)

/-- `build_url(api, lang, cmd, **paramss)` (lines 20-34). `cmd` has
default `None`, so it is an optional string; under `if api:` the value
stored is `int(api) = 1`. -/
def build_url (API_BASE_URL : String) (api : Bool) (lang : String)
    (cmd : Option String) (paramss : List (String × Json)) :
    String × List (String × Json) :=
  let params : List (String × Json) := [("lang", Json.str lang)]
  let params := if api then dictSet params "api" (Json.num 1) else params
  let params :=
    match cmd with
    | some s => if s != "" then dictSet params "cmd" (Json.str s) else params
    | none => params
  (API_BASE_URL ++ "/", dictUpdate params paramss)

/-- `is_pat_token(password)` (lines 45-46), identical to the copy in
`trashmail_api.py`. -/
def is_pat_token (password : String) : Bool :=
  password != "" && strStartsWith password "tmpat_" && decide (6 < password.length)

/-- `opaque_check(session, username, lang)` (lines 61-72): posts the
`opaque_check` command and returns the three capability values (each
defaulting to `False`), or `None` when anything raises. The session is
not mutated by this function, so it is not threaded. -/
def opq_check (API_BASE_URL : String) (username lang : String) (o : Oracle) :
    Option (Json × Json × Json) × List HttpRequest :=
  let bu := build_url API_BASE_URL true lang (some "opaque_check") []
  let req : HttpRequest :=
    { url := bu.1, params := bu.2, jsonBody := [("username", Json.str username)] }
  match o req with
  | .error _ => (none, [req])  -- `except Exception: ... return None`
  | .ok response =>
    match safe_jsonE response with
    | .error _ => (none, [req])
    | .ok resultOpt =>
      -- `result = _safe_json(response) or \x7b\x7d`
      let result := match resultOpt with
        | some j => if j.truthy then j else Json.obj []
        | none => Json.obj []
      match result with
      | Json.obj fields =>
        (some ((dictGet fields "opaque_enabled").getD (Json.bool false),
               (dictGet fields "srp_enabled").getD (Json.bool false),
               (dictGet fields "migration_available").getD (Json.bool false)),
         [req])
      | _ => (none, [req])  -- `.get` on a truthy non-dict raises, caught

/-- The condition of line 144:
`capability is None or capability.get("opaque_enabled", False)`
(the key is always present in the dict `opaque_check` builds). -/
def capOk : Option (Json × Json × Json) → Bool
  | none => true
  | some (oe, _, _) => oe.truthy

/-- Modelled from the spec: `api_login` (line 159) falls back to
`legacy_login(session, username, password)`, a function the repository
does not define under `src/` — only this call site exists. The spec
describes the fallback as the classic form login, "direct HTTP
request/response plumbing: building query parameters, posting JSON
bodies, parsing JSON responses" with the `"login"` command, so it is
modelled as posting the `login` command with the credentials in the
JSON body and reporting the truthiness of the response's `success`
field. -/
def legacy_login (API_BASE_URL lang : String) (s : PySession)
    (username password : String) (o : Oracle) :
    Except PyExn Bool × List HttpRequest :=
  let _ := s
  let bu := build_url API_BASE_URL true lang (some "login") []
  let req : HttpRequest :=
    { url := bu.1, params := bu.2,
      jsonBody := [("fe-login-user", Json.str username),
                   ("fe-login-pass", Json.str password)] }
  match o req with
  | .error e => (.error e, [req])
  | .ok response =>
    match safe_jsonE response with
    | .error e => (.error e, [req])
    | .ok resultOpt =>
      match resultOpt with
      | some (Json.obj fields) =>
        (.ok (jTruthy (dictGet fields "success")), [req])
      | _ => (.ok false, [req])

/-- The request `legacy_login` posts (derived form, used to state
claims). -/
def legacyLoginReq (API_BASE_URL lang username password : String) : HttpRequest :=
  { url := API_BASE_URL ++ "/",
    params := [("lang", Json.str lang), ("api", Json.num 1), ("cmd", Json.str "login")],
    jsonBody := [("fe-login-user", Json.str username),
                 ("fe-login-pass", Json.str password)] }

/-- `api_login(username, password)` (lines 139-162). The PAT-OPAQUE
attempt of lines 145-155 (`pat_opaque_start` followed by
`pat_opaque_finish`, both re-raising every exception) calls the
external `opaque` library, which is not part of this repository and —
per the module's own header — is wire-incompatible with the server; it
is abstracted as the parameter `att`, which returns the session after a
successful handshake or the propagated exception. Every claim settled
here is independent of `att`'s behaviour. -/
def api_login (API_BASE_URL lang : String)
    (att : PySession → String → String → Except PyExn PySession × List HttpRequest)
    (username password : String) (o : Oracle) :
    Except PyExn (Bool × Option PySession) × List HttpRequest :=
  let session : PySession := { cookies := [] }
  let legacyPart : List HttpRequest → Except PyExn (Bool × Option PySession) × List HttpRequest :=
    fun tr0 =>
      match legacy_login API_BASE_URL lang session username password o with
      | (.ok true, tr) => (.ok (true, some session), tr0 ++ tr)
      | (.ok false, tr) => (.ok (false, none), tr0 ++ tr)
      | (.error e, tr) => (.error e, tr0 ++ tr)
  if is_pat_token password then
    let t := opq_check API_BASE_URL username lang o
    if capOk t.1 then
      match att session username password with
      | (.ok s1, tr2) => (.ok (true, some s1), t.2 ++ tr2)
      | (.error e, tr2) => (.error e, t.2 ++ tr2)
    else
      legacyPart t.2
  else
    legacyPart []

/-!
The base64 helpers (lines 49-58). Bytes are lists of naturals below
256. `_b64encode` is `base64.urlsafe_b64encode(data).rstrip(b'=')`;
`_b64decode` re-pads, tries `base64.b64decode` (standard alphabet,
`validate=False`, which *discards* characters outside the standard
alphabet before the length check) and falls back to
`base64.urlsafe_b64decode` when that raises.
-/

/-- The base64 alphabet: standard (`+ /`) or URL-safe (`- _`). -/
def b64chars (urlsafe : Bool) : List Char :=
  "ABCDEFGHIJKLMNOPQRSTUVWXYZabcdefghijklmnopqrstuvwxyz0123456789".toList
    ++ (if urlsafe then ['-', '_'] else ['+', '/'])

/-- The character encoding a 6-bit group. -/
def sextetChar (urlsafe : Bool) (n : Nat) : Char :=
  (b64chars urlsafe).getD n 'A'

/-- The 6-bit group a character decodes to, if any. -/
def sextetIdx (urlsafe : Bool) (c : Char) : Option Nat :=
  (b64chars urlsafe).findIdx? (fun d => d = c)

/-- Bytes to 6-bit groups, three bytes giving four groups, final one or
two bytes giving two or three groups. -/
def bytesToSextets : List Nat → List Nat
  | a :: b :: c :: rest =>
    a / 4 :: ((a % 4) * 16 + b / 16) :: ((b % 16) * 4 + c / 64) :: c % 64
      :: bytesToSextets rest
  | [a, b] => [a / 4, (a % 4) * 16 + b / 16, (b % 16) * 4]
  | [a] => [a / 4, (a % 4) * 16]
  | [] => []

/-- 6-bit groups back to bytes (the decoding direction, lenient about
nonzero trailing bits exactly like `binascii`). A leftover single group
never reaches this function. -/
def sextetsToBytes : List Nat → List Nat
  | a :: b :: c :: d :: rest =>
    (a * 4 + b / 16) :: ((b % 16) * 16 + c / 4) :: ((c % 4) * 64 + d)
      :: sextetsToBytes rest
  | [a, b] => [a * 4 + b / 16]
  | [a, b, c] => [a * 4 + b / 16, (b % 16) * 16 + c / 4]
  | _ => []

/-- `base64.b64encode` / `base64.urlsafe_b64encode`: the encoded
characters plus `=` padding to a multiple of four. -/
def b64encodePadded (urlsafe : Bool) (bs : List Nat) : List Char :=
  (bytesToSextets bs).map (sextetChar urlsafe)
    ++ List.replicate ((3 - bs.length % 3) % 3) '='

/-- `base64.b64decode(s)` with the default `validate=False`: characters
outside the standard alphabet (other than `=`) are discarded, then the
length must be a multiple of four; decoding stops at the first `=`.
`none` is a raised `binascii.Error`. -/
def pyB64decode (s : String) : Option (List Nat) :=
  let kept := s.toList.filter (fun c => (b64chars false).contains c || c == '=')
  if kept.length % 4 != 0 then none
  else
    let data := kept.takeWhile (fun c => c != '=')
    if data.length % 4 == 1 then none
    else some (sextetsToBytes (data.filterMap (sextetIdx false)))

/-- `base64.urlsafe_b64decode(s)`: translate `-` to `+` and `_` to `/`,
then standard decode. -/
def urlsafeTranslate (c : Char) : Char :=
  if c = '-' then '+' else if c = '_' then '/' else c

/-- `base64.urlsafe_b64decode`. -/
def pyUrlsafeB64decode (s : String) : Option (List Nat) :=
  pyB64decode (String.mk (s.toList.map urlsafeTranslate))

/-- `_b64encode(data)` (lines 49-50):
`base64.urlsafe_b64encode(data).rstrip(b'=').decode('ascii')`. -/
def _b64encode (data : List Nat) : String :=
  String.mk (((b64encodePadded true data).reverse.dropWhile (fun c => c = '=')).reverse)

/-- `_b64decode(data)` (lines 53-58): re-pad with `'=' * (-len(data) % 4)`,
try the standard decode, fall back to the URL-safe decode on any
exception. `none` means the fallback itself raised. -/
def _b64decode (data : String) : Option (List Nat) :=
  let padded := data ++ String.mk (List.replicate ((4 - data.length % 4) % 4) '=')
  match pyB64decode padded with
  | some bs => some bs
  | none => pyUrlsafeB64decode padded

/-- The number of 6-bit groups of `data` that encode to the two
URL-safe-specific characters `-` and `_`: exactly these characters are
discarded by the standard-alphabet `base64.b64decode` that `_b64decode`
tries first. -/
def kcount (data : List Nat) : Nat :=
  ((bytesToSextets data).filter (fun n => decide (62 ≤ n))).length

end FOC

/-- A server that is unreachable: every post raises a connection error. -/
def downOracle : Oracle := fun _ => .error (.other "ConnectionError")

/-- A server that answers every post with a plain success body. -/
def okOracle : Oracle := fun _ => .ok { jsonBody := some (Json.obj [("success", Json.bool true)]) }

/-- A server that answers login with success but demands a second
factor: `success` true and `data.requires_2fa` true. -/
def twoFAOracle : Oracle := fun _ =>
  .ok { jsonBody := some (Json.obj
    [("success", Json.bool true),
     ("data", Json.obj [("requires_2fa", Json.bool true)])]) }

/-- A server that answers every post with a `data` payload. -/
def deaOracle : Oracle := fun _ =>
  .ok { jsonBody := some (Json.obj
    [("success", Json.bool true),
     ("data", Json.arr [Json.str "alias1@trashmail.com"])]) }

/-!
Helper lemmas about the embedding, shared by the claim theorems.
-/

theorem dictGet_dictSet_self (d : List (String × Json)) (k : String) (v : Json) :
    dictGet (dictSet d k v) k = some v := by
  induction d with
  | nil => simp [dictSet, dictGet]
  | cons hd t ih =>
    obtain ⟨k1, v1⟩ := hd
    simp only [dictSet]
    split
    · simp [dictGet]
    · next hne =>
      simp only [dictGet, if_neg hne]
      exact ih

theorem dictGet_dictSet_ne (d : List (String × Json)) (k : String) (v : Json)
    (q : String) (h : q ≠ k) : dictGet (dictSet d k v) q = dictGet d q := by
  induction d with
  | nil =>
    simp only [dictSet, dictGet, if_neg (fun hh : k = q => h hh.symm)]
  | cons hd t ih =>
    obtain ⟨k1, v1⟩ := hd
    simp only [dictSet]
    split
    · next hk =>
      subst hk
      simp only [dictGet, if_neg (fun hh : k1 = q => h hh.symm)]
    · simp only [dictGet]
      split
      · rfl
      · exact ih

theorem dictGet_eq_none_of_not_mem (e : List (String × Json)) (k : String)
    (h : k ∉ e.map Prod.fst) : dictGet e k = none := by
  induction e with
  | nil => rfl
  | cons hd t ih =>
    obtain ⟨k1, v1⟩ := hd
    simp only [List.map_cons, List.mem_cons] at h
    push_neg at h
    simp only [dictGet]
    split
    · next hk => exact absurd hk.symm h.1
    · exact ih h.2

theorem dictGet_dictUpdate_of_none (d e : List (String × Json)) (k : String)
    (h : dictGet e k = none) : dictGet (dictUpdate d e) k = dictGet d k := by
  induction e generalizing d with
  | nil => rfl
  | cons hd t ih =>
    obtain ⟨k1, v1⟩ := hd
    simp only [dictGet] at h
    split at h
    · exact absurd h (by simp)
    · next hne =>
      have step : dictUpdate d ((k1, v1) :: t) = dictUpdate (dictSet d k1 v1) t := rfl
      rw [step, ih _ h, dictGet_dictSet_ne _ _ _ _ (fun hh => hne hh.symm)]

theorem dictGet_dictUpdate_of_some (d e : List (String × Json)) (k : String) (v : Json) :
    (e.map Prod.fst).Nodup → dictGet e k = some v →
    dictGet (dictUpdate d e) k = some v := by
  induction e generalizing d with
  | nil =>
    intro _ h
    simp [dictGet] at h
  | cons hd t ih =>
    obtain ⟨k1, v1⟩ := hd
    intro hnd h
    simp only [List.map_cons, List.nodup_cons] at hnd
    obtain ⟨hk1, hndt⟩ := hnd
    have step : dictUpdate d ((k1, v1) :: t) = dictUpdate (dictSet d k1 v1) t := rfl
    simp only [dictGet] at h
    split at h
    · next hk =>
      subst hk
      obtain rfl : v1 = v := by simpa using h
      have ht : dictGet t k1 = none := by
        apply dictGet_eq_none_of_not_mem
        simpa using hk1
      rw [step, dictGet_dictUpdate_of_none _ _ _ ht, dictGet_dictSet_self]
    · rw [step, ih _ hndt h]

theorem api_call_client (c : TMA.TrashMailClient) (cmd : String)
    (ps : List (String × Json)) (o : Oracle) :
    (c.api_call cmd ps o).2.1 = c := by
  simp only [TMA.TrashMailClient.api_call]
  repeat first | rfl | split

theorem api_call_unauth (c : TMA.TrashMailClient) (cmd : String)
    (ps : List (String × Json)) (o : Oracle) (h : c._authenticated = false) :
    c.api_call cmd ps o =
      (.error (.tmApiError (Json.str "Not authenticated. Call login() first.") none), c, []) := by
  simp [TMA.TrashMailClient.api_call, h]

theorem api_call_trace_auth (c : TMA.TrashMailClient) (cmd : String)
    (ps : List (String × Json)) (o : Oracle) (h : c._authenticated = true)
    (hcmd : (cmd != "") = true) :
    (c.api_call cmd ps o).2.2 = [TMA.apiRequest c cmd ps] := by
  have hreq : ({ url := (c._build_url cmd true []).1,
                 params := (c._build_url cmd true []).2,
                 jsonBody := ps } : HttpRequest) =
      TMA.apiRequest c cmd ps := by
    simp [TMA.TrashMailClient._build_url, TMA.apiRequest, hcmd, dictSet, dictUpdate]
  have htr : (c.api_call cmd ps o).2.2 =
      [{ url := (c._build_url cmd true []).1,
         params := (c._build_url cmd true []).2, jsonBody := ps }] := by
    simp only [TMA.TrashMailClient.api_call, h]
    split
    · next hh => exact absurd hh (by simp)
    · repeat first | rfl | split
  rw [htr, hreq]

theorem login_state (c : TMA.TrashMailClient) (u p : String) (o : Oracle) :
    (c.login u p o).2.1 = c ∨
    (c.login u p o).2.1 = { c with _authenticated := true, _username := some u } := by
  simp only [TMA.TrashMailClient.login, TMA.loginTry]
  repeat first | exact Or.inl rfl | exact Or.inr rfl | split

theorem login_trace (c : TMA.TrashMailClient) (u p : String) (o : Oracle) :
    (c.login u p o).2.2 = [TMA.loginRequest c u p] := by
  simp only [TMA.TrashMailClient.login, TMA.loginTry]
  repeat first | rfl | split

theorem login_error_isTM (c : TMA.TrashMailClient) (u p : String) (o : Oracle)
    (e : PyExn) (h : (c.login u p o).1 = .error e) : e.isTMApiError = true := by
  have hw : (c.login u p o).1 = TMA.wrapLoginExc (TMA.loginTry c u p o).1 := rfl
  rw [hw] at h
  unfold TMA.wrapLoginExc at h
  split at h
  · exact absurd h (by simp)
  · split at h
    · next hTM =>
      obtain rfl : _ = e := by simpa using h
      exact hTM
    · obtain rfl : _ = e := by simpa using h
      rfl

theorem get_deas_client (c : TMA.TrashMailClient) (o : Oracle) :
    (c.get_deas o).2.1 = c := by
  simp only [TMA.TrashMailClient.get_deas]
  split
  · exact api_call_client c _ _ o
  · split <;> exact api_call_client c _ _ o

theorem create_dea_client (c : TMA.TrashMailClient) (re : String)
    (opts : List (String × Json)) (o : Oracle) :
    (c.create_dea re opts o).2.1 = c := by
  simp only [TMA.TrashMailClient.create_dea]
  split
  · exact api_call_client c _ _ o
  · split <;> exact api_call_client c _ _ o

theorem check_auth_methods_client (c : TMA.TrashMailClient) (u : String) (o : Oracle) :
    (c.check_auth_methods u o).2.1 = c := by
  simp only [TMA.TrashMailClient.check_auth_methods]
  repeat first | rfl | split

theorem logout_client (c : TMA.TrashMailClient) (o : Oracle) :
    (c.logout o).2.1 =
      { c with _authenticated := false, _username := none, session := c.session + 1 } := by
  simp only [TMA.TrashMailClient.logout, api_call_client]

theorem dictGet_isSome_dictSet (d : List (String × Json)) (k1 : String) (v1 : Json)
    (k : String) (h : (dictGet d k).isSome = true) :
    (dictGet (dictSet d k1 v1) k).isSome = true := by
  by_cases hk : k1 = k
  · subst hk
    rw [dictGet_dictSet_self]
    rfl
  · rw [dictGet_dictSet_ne _ _ _ _ (fun hh => hk hh.symm)]
    exact h

theorem dictGet_isSome_dictUpdate (d e : List (String × Json)) (k : String)
    (h : (dictGet d k).isSome = true) :
    (dictGet (dictUpdate d e) k).isSome = true := by
  induction e generalizing d with
  | nil => exact h
  | cons hd t ih =>
    obtain ⟨k1, v1⟩ := hd
    have step : dictUpdate d ((k1, v1) :: t) = dictUpdate (dictSet d k1 v1) t := rfl
    rw [step]
    exact ih _ (dictGet_isSome_dictSet _ _ _ _ h)

theorem get_deas_trace (c : TMA.TrashMailClient) (o : Oracle) :
    (c.get_deas o).2.2 = (c.api_call "read_dea" [] o).2.2 := by
  simp only [TMA.TrashMailClient.get_deas]
  repeat first | rfl | split

theorem create_dea_trace (c : TMA.TrashMailClient) (re : String)
    (opts : List (String × Json)) (o : Oracle) :
    (c.create_dea re opts o).2.2 =
      (c.api_call "save_dea" (dictUpdate [("realemail", Json.str re)] opts) o).2.2 := by
  simp only [TMA.TrashMailClient.create_dea]
  repeat first | rfl | split

theorem get_deas_result (c : TMA.TrashMailClient) (o : Oracle) (j : Json)
    (h : (c.api_call "read_dea" [] o).1 = .ok j) :
    (c.get_deas o).1 = j.pyGetD "data" (Json.arr []) := by
  simp only [TMA.TrashMailClient.get_deas, h]
  split <;> (rename_i hv; simp [hv])

theorem create_dea_result (c : TMA.TrashMailClient) (re : String)
    (opts : List (String × Json)) (o : Oracle) (j : Json)
    (h : (c.api_call "save_dea" (dictUpdate [("realemail", Json.str re)] opts) o).1 = .ok j) :
    (c.create_dea re opts o).1 = j.pyGetD "data" (Json.obj []) := by
  simp only [TMA.TrashMailClient.create_dea, h]
  split <;> (rename_i hv; simp [hv])

theorem TMA_build_url_spec (c : TMA.TrashMailClient) (cmd : String) (api : Bool)
    (extra : List (String × Json)) (hnd : (extra.map Prod.fst).Nodup) :
    (c._build_url cmd api extra).1 = c.base_url ++ "/" ∧
    (∀ k v, dictGet extra k = some v →
      dictGet (c._build_url cmd api extra).2 k = some v) ∧
    (dictGet extra "lang" = none →
      dictGet (c._build_url cmd api extra).2 "lang" = some (Json.str c.lang)) ∧
    (dictGet extra "api" = none →
      dictGet (c._build_url cmd api extra).2 "api" =
        if api then some (Json.num 1) else none) ∧
    (dictGet extra "cmd" = none →
      dictGet (c._build_url cmd api extra).2 "cmd" =
        if cmd = "" then none else some (Json.str cmd)) := by
  refine ⟨rfl, ?_, ?_, ?_, ?_⟩
  · intro k v h
    exact dictGet_dictUpdate_of_some _ _ _ _ hnd h
  all_goals
    intro h
    simp only [TMA.TrashMailClient._build_url]
    rw [dictGet_dictUpdate_of_none _ _ _ h]
    by_cases hapi : api = true <;> by_cases hcmd : cmd = "" <;>
      simp [hapi, hcmd, dictGet, dictSet]

theorem FOC_build_url_spec (base : String) (api : Bool) (lang : String)
    (cmd2 : Option String) (extra : List (String × Json))
    (hnd : (extra.map Prod.fst).Nodup) :
    (FOC.build_url base api lang cmd2 extra).1 = base ++ "/" ∧
    (∀ k v, dictGet extra k = some v →
      dictGet (FOC.build_url base api lang cmd2 extra).2 k = some v) ∧
    (dictGet extra "lang" = none →
      dictGet (FOC.build_url base api lang cmd2 extra).2 "lang" = some (Json.str lang)) ∧
    (dictGet extra "api" = none →
      dictGet (FOC.build_url base api lang cmd2 extra).2 "api" =
        if api then some (Json.num 1) else none) ∧
    (dictGet extra "cmd" = none →
      dictGet (FOC.build_url base api lang cmd2 extra).2 "cmd" =
        match cmd2 with
        | some s => if s = "" then none else some (Json.str s)
        | none => none) := by
  refine ⟨rfl, ?_, ?_, ?_, ?_⟩
  · intro k v h
    exact dictGet_dictUpdate_of_some _ _ _ _ hnd h
  all_goals
    intro h
    simp only [FOC.build_url]
    rw [dictGet_dictUpdate_of_none _ _ _ h]
    rcases cmd2 with - | s <;>
      [skip; by_cases hs : s = ""] <;>
      by_cases hapi : api = true <;>
      simp [hapi, dictGet, dictSet, *]

theorem login_with_pat_state (c : TMA.TrashMailClient) (u t : String) (o : Oracle) :
    (c.login_with_pat u t o).2.1 = c ∨
    (c.login_with_pat u t o).2.1 =
      { c with _authenticated := true, _username := some u } := by
  simp only [TMA.TrashMailClient.login_with_pat]
  split
  · exact Or.inl rfl
  · exact login_state c u t o

theorem step_cases (c : TMA.TrashMailClient) (op : TMA.Op) :
    TMA.step c op = c ∨
    ((∃ u, TMA.step c op = { c with _authenticated := true, _username := some u }) ∧
      op.isLoginOp = true) ∨
    (TMA.step c op =
        { c with _authenticated := false, _username := none, session := c.session + 1 } ∧
      op.isLogoutOp = true) := by
  cases op with
  | op_login u p o =>
    rcases login_state c u p o with h | h
    · exact Or.inl h
    · exact Or.inr (Or.inl ⟨⟨u, h⟩, rfl⟩)
  | op_login_with_pat u t o =>
    rcases login_with_pat_state c u t o with h | h
    · exact Or.inl h
    · exact Or.inr (Or.inl ⟨⟨u, h⟩, rfl⟩)
  | op_api_call cmd ps o => exact Or.inl (api_call_client c cmd ps o)
  | op_get_deas o => exact Or.inl (get_deas_client c o)
  | op_create_dea re opts o => exact Or.inl (create_dea_client c re opts o)
  | op_logout o => exact Or.inr (Or.inr ⟨logout_client c o, rfl⟩)
  | op_check_auth_methods u o => exact Or.inl (check_auth_methods_client c u o)

theorem step_inv (c : TMA.TrashMailClient) (op : TMA.Op)
    (h : c._authenticated = false → c._username = none) :
    (TMA.step c op)._authenticated = false → (TMA.step c op)._username = none := by
  rcases step_cases c op with hc | ⟨⟨u, hc⟩, -⟩ | ⟨hc, -⟩ <;> rw [hc] <;> intro ha
  · exact h ha
  · exact absurd ha (by simp)
  · rfl

theorem run_inv (ops : List TMA.Op) (c : TMA.TrashMailClient)
    (h : c._authenticated = false → c._username = none) :
    (TMA.run c ops)._authenticated = false → (TMA.run c ops)._username = none := by
  induction ops generalizing c with
  | nil => exact h
  | cons op t ih => exact ih _ (step_inv c op h)

theorem step_auth_up (c : TMA.TrashMailClient) (op : TMA.Op)
    (h : (TMA.step c op)._authenticated = true) :
    c._authenticated = true ∨ op.isLoginOp = true := by
  rcases step_cases c op with hc | ⟨-, hop⟩ | ⟨hc, -⟩
  · rw [hc] at h
    exact Or.inl h
  · exact Or.inr hop
  · rw [hc] at h
    exact absurd h (by simp)

theorem step_auth_down (c : TMA.TrashMailClient) (op : TMA.Op)
    (h : (TMA.step c op)._authenticated = false) :
    c._authenticated = false ∨ op.isLogoutOp = true := by
  rcases step_cases c op with hc | ⟨⟨u, hc⟩, -⟩ | ⟨-, hop⟩
  · rw [hc] at h
    exact Or.inl h
  · rw [hc] at h
    exact absurd h (by simp)
  · exact Or.inr hop

theorem safe_jsonE_ok (r : HttpResponse) : safe_jsonE r = .ok r.jsonBody := by
  obtain ⟨b⟩ := r
  cases b <;> rfl

theorem legacy_login_trace (base lang : String) (s : FOC.PySession) (u p : String)
    (o : Oracle) :
    (FOC.legacy_login base lang s u p o).2 = [FOC.legacyLoginReq base lang u p] := by
  simp only [FOC.legacy_login]
  repeat first | rfl | split

theorem legacy_login_error (base lang : String) (s : FOC.PySession) (u p : String)
    (o : Oracle) (e : PyExn) (h : (FOC.legacy_login base lang s u p o).1 = .error e) :
    o (FOC.legacyLoginReq base lang u p) = .error e := by
  simp only [FOC.legacy_login] at h
  split at h
  · next e1 heq =>
    obtain rfl : e1 = e := by simpa using h
    exact heq
  · split at h
    · next e2 heq2 =>
      rw [safe_jsonE_ok] at heq2
      exact absurd heq2 (by simp)
    · split at h <;> simp at h

/-!
Claim theorems.
-/

/-- C1: for every username and every password that is not a PAT token,
`api_login` skips the OPAQUE path entirely — the only request it posts
is the classic login fallback request — and raises no local (non-HTTP)
error before that request is made: its outcome is exactly the legacy
login's outcome, and any error it raises is the error the post of the
fallback request itself raised. `legacy_login` is modelled from the
spec (see its docstring), since only its call site exists in `src/`. -/
theorem C1_non_pat_legacy_fallback (base lang : String)
    (att : FOC.PySession → String → String → Except PyExn FOC.PySession × List HttpRequest)
    (u p : String) (o : Oracle) (h : FOC.is_pat_token p = false) :
    (FOC.api_login base lang att u p o).2 = [FOC.legacyLoginReq base lang u p] ∧
    (FOC.api_login base lang att u p o).1 =
      (match (FOC.legacy_login base lang { cookies := [] } u p o).1 with
       | .ok true => .ok (true, some { cookies := [] })
       | .ok false => .ok (false, none)
       | .error e => .error e) ∧
    (∀ e, (FOC.api_login base lang att u p o).1 = .error e →
      o (FOC.legacyLoginReq base lang u p) = .error e) := by
  have happ : FOC.api_login base lang att u p o =
      (match FOC.legacy_login base lang { cookies := [] } u p o with
       | (.ok true, tr) => (.ok (true, some { cookies := [] }), [] ++ tr)
       | (.ok false, tr) => (.ok (false, none), [] ++ tr)
       | (.error e, tr) => (.error e, [] ++ tr)) := by
    simp only [FOC.api_login, h, Bool.false_eq_true, if_false]
  rcases hleg : FOC.legacy_login base lang { cookies := [] } u p o with ⟨r, tr⟩
  have htr : tr = [FOC.legacyLoginReq base lang u p] := by
    have h2 := legacy_login_trace base lang { cookies := [] } u p o
    rw [hleg] at h2
    exact h2
  rw [hleg] at happ
  subst htr
  cases r with
  | error e =>
    refine ⟨by rw [happ]; rfl, by rw [happ], ?_⟩
    intro e1 he1
    rw [happ] at he1
    obtain rfl : e = e1 := by simpa using he1
    exact legacy_login_error base lang { cookies := [] } u p o e (by rw [hleg])
  | ok b =>
    cases b with
    | false =>
      refine ⟨by rw [happ]; rfl, by rw [happ], ?_⟩
      intro e1 he1
      rw [happ] at he1
      simp at he1
    | true =>
      refine ⟨by rw [happ]; rfl, by rw [happ], ?_⟩
      intro e1 he1
      rw [happ] at he1
      simp at he1

/-- C1 witness: a concrete ordinary password against a concrete server:
the one request posted is the classic login request. -/
theorem C1_witness :
    (FOC.api_login "https://trashmail.com" "en"
        (fun s _ _ => (.ok s, [])) "alice@example.com" "hunter2" okOracle).2 =
      [FOC.legacyLoginReq "https://trashmail.com" "en" "alice@example.com" "hunter2"] :=
  (C1_non_pat_legacy_fallback "https://trashmail.com" "en"
    (fun s _ _ => (.ok s, [])) "alice@example.com" "hunter2" okOracle (by decide)).1

/-- C5: the client's observable state machine is just
authenticated / not-authenticated: along every operation sequence from
construction the `_authenticated` flag is a boolean, an unauthenticated
client always has `username = None`, a step can turn the flag on only
through the login flow (`login`, or `login_with_pat`, which performs
its login by calling `login`), and a step can turn it off only through
`logout`. -/
theorem C5_state_machine (base lang : String) (ops : List TMA.Op) (op : TMA.Op) :
    ((TMA.run (TMA.TrashMailClient.init base lang) ops)._authenticated = true ∨
     (TMA.run (TMA.TrashMailClient.init base lang) ops)._authenticated = false) ∧
    ((TMA.run (TMA.TrashMailClient.init base lang) ops)._authenticated = false →
      (TMA.run (TMA.TrashMailClient.init base lang) ops).username = none) ∧
    ((TMA.step (TMA.run (TMA.TrashMailClient.init base lang) ops) op)._authenticated = true →
      (TMA.run (TMA.TrashMailClient.init base lang) ops)._authenticated = true ∨
        op.isLoginOp = true) ∧
    ((TMA.step (TMA.run (TMA.TrashMailClient.init base lang) ops) op)._authenticated = false →
      (TMA.run (TMA.TrashMailClient.init base lang) ops)._authenticated = false ∨
        op.isLogoutOp = true) := by
  refine ⟨?_, ?_, ?_, ?_⟩
  · exact Bool.eq_false_or_eq_true _
  · exact run_inv ops _ (fun _ => rfl)
  · exact step_auth_up _ op
  · exact step_auth_down _ op

/-- C5 witness: the invariant at the freshly constructed client. -/
theorem C5_witness :
    (TMA.run (TMA.TrashMailClient.init "https://trashmail.com" "en") []).username = none :=
  (C5_state_machine "https://trashmail.com" "en" [] (TMA.Op.op_logout downOracle)).2.1 rfl

/-- C3: the named API commands map to the Python methods as listed:
`login` posts `cmd="login"` with the credentials in the JSON body;
`get_deas` posts `cmd="read_dea"` and returns the response's `"data"`
(defaulting to the empty list); `create_dea` posts `cmd="save_dea"`
with a `"realemail"` parameter (whose value is the given real email
unless an extra option overrides it) and returns the response's
`"data"` (defaulting to the empty dict); `logout` posts `cmd="logout"`.
The authenticated wrappers post only on an authenticated client. -/
theorem C3_command_mapping (c : TMA.TrashMailClient) (u p re : String)
    (opts : List (String × Json)) (o : Oracle) (hauth : c._authenticated = true) :
    (c.login u p o).2.2 = [TMA.loginRequest c u p] ∧
    (c.get_deas o).2.2 = [TMA.apiRequest c "read_dea" []] ∧
    (∀ j, (c.api_call "read_dea" [] o).1 = .ok j →
      (c.get_deas o).1 = j.pyGetD "data" (Json.arr [])) ∧
    (c.create_dea re opts o).2.2 =
      [TMA.apiRequest c "save_dea" (dictUpdate [("realemail", Json.str re)] opts)] ∧
    (dictGet (dictUpdate [("realemail", Json.str re)] opts) "realemail").isSome = true ∧
    (dictGet opts "realemail" = none →
      dictGet (dictUpdate [("realemail", Json.str re)] opts) "realemail" =
        some (Json.str re)) ∧
    (∀ j, (c.api_call "save_dea" (dictUpdate [("realemail", Json.str re)] opts) o).1 = .ok j →
      (c.create_dea re opts o).1 = j.pyGetD "data" (Json.obj [])) ∧
    (c.logout o).2.2 = [TMA.apiRequest c "logout" []] := by
  refine ⟨login_trace c u p o, ?_, get_deas_result c o, ?_, ?_, ?_,
    create_dea_result c re opts o, ?_⟩
  · rw [get_deas_trace]
    exact api_call_trace_auth c "read_dea" [] o hauth rfl
  · rw [create_dea_trace]
    exact api_call_trace_auth c "save_dea" _ o hauth rfl
  · exact dictGet_isSome_dictUpdate _ _ _ rfl
  · intro h
    rw [dictGet_dictUpdate_of_none _ _ _ h]
    rfl
  · have hlt : (c.logout o).2.2 = (c.api_call "logout" [] o).2.2 := rfl
    rw [hlt]
    exact api_call_trace_auth c "logout" [] o hauth rfl

/-- C3 witness: the mapping at a concrete authenticated client; the
`get_deas` call against a concrete server returns the `data` list. -/
theorem C3_witness :
    (({ base_url := "https://trashmail.com", lang := "en", session := 0,
        _authenticated := true, _username := some "alice@example.com" } :
        TMA.TrashMailClient).get_deas deaOracle).1 =
      Except.ok (Json.arr [Json.str "alias1@trashmail.com"]) :=
  (C3_command_mapping
    { base_url := "https://trashmail.com", lang := "en", session := 0,
      _authenticated := true, _username := some "alice@example.com" }
    "alice@example.com" "pw" "real@example.com" [] deaOracle rfl).2.2.1
    (Json.obj [("success", Json.bool true),
               ("data", Json.arr [Json.str "alias1@trashmail.com"])]) rfl

/-- C6: both URL/parameter builders return the base URL followed by `/`
together with a params dict holding `lang`, `api = 1` iff the `api`
flag is set, `cmd` iff the command is non-empty, and every extra
parameter, extra parameters overriding the built-in keys on
collision. -/
theorem C6_build_url_spec (c : TMA.TrashMailClient) (base : String) (cmd : String)
    (api : Bool) (lang : String) (cmd2 : Option String)
    (extra : List (String × Json)) (hnd : (extra.map Prod.fst).Nodup) :
    ((c._build_url cmd api extra).1 = c.base_url ++ "/" ∧
     (∀ k v, dictGet extra k = some v →
       dictGet (c._build_url cmd api extra).2 k = some v) ∧
     (dictGet extra "lang" = none →
       dictGet (c._build_url cmd api extra).2 "lang" = some (Json.str c.lang)) ∧
     (dictGet extra "api" = none →
       dictGet (c._build_url cmd api extra).2 "api" =
         if api then some (Json.num 1) else none) ∧
     (dictGet extra "cmd" = none →
       dictGet (c._build_url cmd api extra).2 "cmd" =
         if cmd = "" then none else some (Json.str cmd))) ∧
    ((FOC.build_url base api lang cmd2 extra).1 = base ++ "/" ∧
     (∀ k v, dictGet extra k = some v →
       dictGet (FOC.build_url base api lang cmd2 extra).2 k = some v) ∧
     (dictGet extra "lang" = none →
       dictGet (FOC.build_url base api lang cmd2 extra).2 "lang" = some (Json.str lang)) ∧
     (dictGet extra "api" = none →
       dictGet (FOC.build_url base api lang cmd2 extra).2 "api" =
         if api then some (Json.num 1) else none) ∧
     (dictGet extra "cmd" = none →
       dictGet (FOC.build_url base api lang cmd2 extra).2 "cmd" =
         match cmd2 with
         | some s => if s = "" then none else some (Json.str s)
         | none => none)) :=
  ⟨TMA_build_url_spec c cmd api extra hnd,
   FOC_build_url_spec base api lang cmd2 extra hnd⟩

/-- C6 witness: a concrete extra parameter survives into the built
params and overrides nothing it should not. -/
theorem C6_witness :
    dictGet ((TMA.TrashMailClient.init "https://trashmail.com" "en")._build_url
      "login" true [("x", Json.num 5)]).2 "x" = some (Json.num 5) :=
  (C6_build_url_spec (TMA.TrashMailClient.init "https://trashmail.com" "en")
    "https://trashmail.com" "login" true "en" (some "login") [("x", Json.num 5)]
    (by simp)).1.2.1 "x" (Json.num 5) rfl

/-- C7: the JSON-safe response parser never propagates a JSON decode
error: for every response, `_safe_json` (identical in both source
files) returns the parsed JSON value when the body is valid JSON, and
returns `None` when parsing raises a `JSONDecodeError`; it never raises
at all. -/
theorem C7_safe_json_total (r : HttpResponse) :
    (∀ j, r.json = .ok j → safe_jsonE r = .ok (some j)) ∧
    (r.json = .error PyExn.jsonDecodeError → safe_jsonE r = .ok none) ∧
    ∀ e, safe_jsonE r ≠ .error e := by
  obtain ⟨body⟩ := r
  cases body <;> simp [HttpResponse.json, safe_jsonE]

/-- C7 witness: a concrete valid-JSON response is parsed and returned. -/
theorem C7_witness :
    safe_jsonE { jsonBody := some (Json.obj [("success", Json.bool true)]) } =
      .ok (some (Json.obj [("success", Json.bool true)])) :=
  (C7_safe_json_total { jsonBody := some (Json.obj [("success", Json.bool true)]) }).1
    (Json.obj [("success", Json.bool true)]) rfl

/-- C8: the server response with `success` true and `data.requires_2fa`
true makes `login` return `False` while leaving the client
authenticated, with the attempted username recorded. -/
theorem C8_2fa_login_leaves_authenticated :
    ((TMA.TrashMailClient.init "https://trashmail.com" "en").login
        "alice@example.com" "pw" twoFAOracle).1 = Except.ok false ∧
    ((TMA.TrashMailClient.init "https://trashmail.com" "en").login
        "alice@example.com" "pw" twoFAOracle).2.1.is_authenticated = true ∧
    ((TMA.TrashMailClient.init "https://trashmail.com" "en").login
        "alice@example.com" "pw" twoFAOracle).2.1.username = some "alice@example.com" :=
  ⟨rfl, rfl, rfl⟩

/-- C10: `logout` always returns `True` and always resets the client —
`is_authenticated` becomes `False`, `username` becomes `None` and a
fresh session replaces the old one — for every starting state and every
server behaviour, including a server-side `logout` call that raises
(the `try ... except Exception: pass` swallows the error). -/
theorem C10_logout_always_resets (c : TMA.TrashMailClient) (o : Oracle) :
    (c.logout o).1 = .ok true ∧
    (c.logout o).2.1.is_authenticated = false ∧
    (c.logout o).2.1.username = none ∧
    (c.logout o).2.1.session = c.session + 1 := by
  refine ⟨rfl, rfl, rfl, ?_⟩
  rw [logout_client]

/-- C2 fails as stated for `logout`: on a freshly constructed (hence
unauthenticated) client, `logout` does not raise `TrashMailAPIError` —
the internal `api_call("logout")` failure is swallowed by
`try ... except Exception: pass` and `logout` returns `True`. -/
theorem C2_counterexample :
    (TMA.TrashMailClient.init "https://trashmail.com" "en")._authenticated = false ∧
    ((TMA.TrashMailClient.init "https://trashmail.com" "en").logout downOracle).1 =
      Except.ok true :=
  ⟨rfl, rfl⟩

/-- C2 amended: on a client that is not authenticated, `get_deas` and
`create_dea` raise `TrashMailAPIError` (because `api_call` raises when
`self._authenticated` is false, before posting anything), while
`logout` triggers that same `api_call` failure internally but catches
it and returns `True` without posting anything. -/
theorem C2_unauth_amended (c : TMA.TrashMailClient) (re : String)
    (opts : List (String × Json)) (o : Oracle) (h : c._authenticated = false) :
    (c.get_deas o).1 =
      .error (.tmApiError (Json.str "Not authenticated. Call login() first.") none) ∧
    (c.get_deas o).2.2 = [] ∧
    (c.create_dea re opts o).1 =
      .error (.tmApiError (Json.str "Not authenticated. Call login() first.") none) ∧
    (c.create_dea re opts o).2.2 = [] ∧
    (c.logout o).1 = .ok true ∧
    (c.logout o).2.2 = [] := by
  refine ⟨?_, ?_, ?_, ?_, rfl, ?_⟩ <;>
    simp [TMA.TrashMailClient.get_deas, TMA.TrashMailClient.create_dea,
      TMA.TrashMailClient.logout, api_call_unauth _ _ _ _ h]

/-- C2 witness: the amended claim at a concrete unauthenticated client. -/
theorem C2_witness :
    ((TMA.TrashMailClient.init "https://trashmail.com" "en").get_deas downOracle).1 =
      .error (.tmApiError (Json.str "Not authenticated. Call login() first.") none) :=
  (C2_unauth_amended (TMA.TrashMailClient.init "https://trashmail.com" "en")
    "real@example.com" [] downOracle rfl).1

/-- C4 fails as stated: `"tmpat_"` starts with `"tmpat_"` but
`is_pat_token` also requires `len(password) > 6`, so it returns
`False` on it. -/
theorem C4_counterexample :
    TMA.is_pat_token "tmpat_" = false ∧ strStartsWith "tmpat_" "tmpat_" = true := by
  decide

/-- C4 amended: both files define the same `is_pat_token`, which returns
`True` iff the string starts with `"tmpat_"` AND is strictly longer
than the bare prefix; `login_with_pat` (which checks only the prefix)
raises `ValueError` iff the token does not start with `"tmpat_"`. -/
theorem C4_pat_token_amended (s : String) (c : TMA.TrashMailClient) (u t : String)
    (o : Oracle) :
    TMA.is_pat_token s = FOC.is_pat_token s ∧
    (TMA.is_pat_token s = true ↔ strStartsWith s "tmpat_" = true ∧ 6 < s.length) ∧
    ((c.login_with_pat u t o).1 =
        .error (.valueError "Invalid PAT format. Must start with tmpat_") ↔
      strStartsWith t "tmpat_" = false) := by
  refine ⟨rfl, ?_, ?_⟩
  · simp only [TMA.is_pat_token, Bool.and_eq_true, bne_iff_ne, ne_eq,
      decide_eq_true_eq]
    constructor
    · rintro ⟨⟨-, h1⟩, h2⟩
      exact ⟨h1, h2⟩
    · rintro ⟨h1, h2⟩
      refine ⟨⟨?_, h1⟩, h2⟩
      rintro rfl
      exact absurd h1 (by decide)
  · constructor
    · intro h
      by_contra hst
      rw [Bool.not_eq_false] at hst
      rw [TMA.TrashMailClient.login_with_pat] at h
      rw [hst] at h
      simp only [Bool.true_eq_false, if_false] at h
      have := login_error_isTM c u t o _ h
      simp [PyExn.isTMApiError] at this
    · intro hst
      rw [TMA.TrashMailClient.login_with_pat, hst]
      rfl

/-- C4 witness: the amended claim at a concrete malformed token. -/
theorem C4_witness :
    ((TMA.TrashMailClient.init "https://trashmail.com" "en").login_with_pat
        "alice@example.com" "hunter2" downOracle).1 =
      .error (.valueError "Invalid PAT format. Must start with tmpat_") :=
  (C4_pat_token_amended "x" (TMA.TrashMailClient.init "https://trashmail.com" "en")
    "alice@example.com" "hunter2" downOracle).2.2.mpr (by decide)

/-!
Lemmas for the base64 round-trip analysis (claim C9).
-/

theorem sextetIdx_sextetChar : ∀ n, n < 64 →
    FOC.sextetIdx false (FOC.sextetChar false n) = some n := by decide

theorem keep_sextetChar_true : ∀ n, n < 64 →
    (((FOC.b64chars false).contains (FOC.sextetChar true n) || FOC.sextetChar true n == '=') =
      decide (n < 62)) := by decide

theorem keep_sextetChar_false : ∀ n, n < 64 →
    (((FOC.b64chars false).contains (FOC.sextetChar false n) || FOC.sextetChar false n == '=') =
      true) := by decide

theorem translate_sextetChar : ∀ n, n < 64 →
    FOC.urlsafeTranslate (FOC.sextetChar true n) = FOC.sextetChar false n := by decide

theorem sextetChar_agree : ∀ n, n < 62 →
    FOC.sextetChar true n = FOC.sextetChar false n := by decide

theorem sextetChar_ne (u : Bool) (n : Nat) : FOC.sextetChar u n ≠ '=' := by
  unfold FOC.sextetChar
  by_cases h : n < (FOC.b64chars u).length
  · intro hc
    have hm : (FOC.b64chars u).getD n 'A' ∈ FOC.b64chars u := by
      rw [List.getD_eq_getElem _ _ h]
      exact List.getElem_mem _
    rw [hc] at hm
    revert hm
    cases u <;> decide
  · rw [List.getD_eq_default _ _ (Nat.le_of_not_lt h)]
    decide

theorem sextets_lt (bs : List Nat) (hb : ∀ x ∈ bs, x < 256) :
    ∀ n ∈ FOC.bytesToSextets bs, n < 64 := by
  induction bs using FOC.bytesToSextets.induct with
  | case1 a b c rest ih =>
    have ha : a < 256 := hb a (by simp)
    have hbb : b < 256 := hb b (by simp)
    have hc : c < 256 := hb c (by simp)
    intro n hn
    simp only [FOC.bytesToSextets, List.mem_cons] at hn
    rcases hn with rfl | rfl | rfl | rfl | hn
    · omega
    · omega
    · omega
    · omega
    · exact ih (fun x hx => hb x (by simp [hx])) n hn
  | case2 a b =>
    have ha : a < 256 := hb a (by simp)
    have hbb : b < 256 := hb b (by simp)
    intro n hn
    simp only [FOC.bytesToSextets, List.mem_cons, List.not_mem_nil, or_false] at hn
    rcases hn with rfl | rfl | rfl <;> omega
  | case3 a =>
    have ha : a < 256 := hb a (by simp)
    intro n hn
    simp only [FOC.bytesToSextets, List.mem_cons, List.not_mem_nil, or_false] at hn
    rcases hn with rfl | rfl <;> omega
  | case4 =>
    intro n hn
    simp [FOC.bytesToSextets] at hn

theorem sextets_len_mod1 (bs : List Nat) :
    (FOC.bytesToSextets bs).length % 4 ≠ 1 := by
  induction bs using FOC.bytesToSextets.induct with
  | case1 a b c rest ih =>
    simp only [FOC.bytesToSextets, List.length_cons]
    omega
  | case2 a b =>
    simp only [FOC.bytesToSextets, List.length_cons, List.length_nil]
    omega
  | case3 a =>
    simp only [FOC.bytesToSextets, List.length_cons, List.length_nil]
    omega
  | case4 => decide

theorem takeWhile_ne_append (xs : List Char) (P : Nat)
    (hx : ∀ c ∈ xs, (c != '=') = true) :
    (xs ++ List.replicate P '=').takeWhile (fun c => c != '=') = xs := by
  induction xs with
  | nil =>
    cases P with
    | zero => rfl
    | succ n =>
      simp [List.replicate_succ, List.takeWhile_cons]
  | cons x t ih =>
    have hxh : (x != '=') = true := hx x (by simp)
    simp only [List.cons_append, List.takeWhile_cons, hxh, if_true]
    rw [ih (fun c hc => hx c (by simp [hc]))]

theorem dropWhile_replicate_append (n : Nat) (ys : List Char) (p : Char → Bool)
    (hp : p '=' = true) :
    (List.replicate n '=' ++ ys).dropWhile p = ys.dropWhile p := by
  induction n with
  | zero => rfl
  | succ m ih =>
    simp only [List.replicate_succ, List.cons_append, List.dropWhile_cons, hp, if_true]
    exact ih

theorem dropWhile_eq_self_of_none (ys : List Char) (p : Char → Bool)
    (hy : ∀ c ∈ ys, p c = false) : ys.dropWhile p = ys := by
  cases ys with
  | nil => rfl
  | cons y t =>
    have : p y = false := hy y (by simp)
    simp [List.dropWhile_cons, this]

theorem b64encode_eq (bs : List Nat) :
    FOC._b64encode bs = String.mk ((FOC.bytesToSextets bs).map (FOC.sextetChar true)) := by
  unfold FOC._b64encode FOC.b64encodePadded
  congr 1
  rw [List.reverse_append, List.reverse_replicate,
      dropWhile_replicate_append _ _ _ (by decide),
      dropWhile_eq_self_of_none _ _ ?_, List.reverse_reverse]
  intro c hc
  rw [List.mem_reverse] at hc
  obtain ⟨n, -, rfl⟩ := List.mem_map.mp hc
  simpa using sextetChar_ne true n

theorem filterMap_sextet (S : List Nat) (hS : ∀ n ∈ S, n < 64) :
    S.filterMap (fun n => FOC.sextetIdx false (FOC.sextetChar false n)) = S := by
  induction S with
  | nil => rfl
  | cons n t ih =>
    rw [List.filterMap_cons, sextetIdx_sextetChar n (hS n (by simp)),
        ih (fun x hx => hS x (by simp [hx]))]

theorem filter_lt62_add_filter_ge62 (S : List Nat) :
    (S.filter (fun n => decide (n < 62))).length +
      (S.filter (fun n => decide (62 ≤ n))).length = S.length := by
  have h := List.length_eq_length_filter_add (l := S) (fun n => decide (n < 62))
  have hc : S.filter (fun n => !decide (n < 62)) = S.filter (fun n => decide (62 ≤ n)) := by
    apply List.filter_congr
    intro a _
    by_cases hh : a < 62
    · simp [hh, Nat.not_le.mpr hh]
    · simp [hh, Nat.le_of_not_lt hh]
  rw [hc] at h
  omega

theorem sextets_roundtrip (bs : List Nat) (hb : ∀ x ∈ bs, x < 256) :
    FOC.sextetsToBytes (FOC.bytesToSextets bs) = bs := by
  induction bs using FOC.bytesToSextets.induct with
  | case1 a b c rest ih =>
    have ha : a < 256 := hb a (by simp)
    have hbb : b < 256 := hb b (by simp)
    have hc : c < 256 := hb c (by simp)
    simp only [FOC.bytesToSextets, FOC.sextetsToBytes, List.cons.injEq]
    refine ⟨by omega, by omega, by omega, ih ?_⟩
    intro x hx
    exact hb x (by simp [hx])
  | case2 a b =>
    have ha : a < 256 := hb a (by simp)
    have hbb : b < 256 := hb b (by simp)
    simp only [FOC.bytesToSextets, FOC.sextetsToBytes, List.cons.injEq, and_true]
    exact ⟨by omega, by omega⟩
  | case3 a =>
    have ha : a < 256 := hb a (by simp)
    simp only [FOC.bytesToSextets, FOC.sextetsToBytes, List.cons.injEq, and_true]
    omega
  | case4 => rfl

theorem pyB64decode_encoded (S : List Nat) (P : Nat) (hS : ∀ n ∈ S, n < 64)
    (hlen : (S.length + P) % 4 = 0) (hmod : S.length % 4 ≠ 1) :
    FOC.pyB64decode (String.mk (S.map (FOC.sextetChar false) ++ List.replicate P '=')) =
      some (FOC.sextetsToBytes S) := by
  have htl : (String.mk (S.map (FOC.sextetChar false) ++ List.replicate P '=')).toList =
      S.map (FOC.sextetChar false) ++ List.replicate P '=' := rfl
  have hfilter : (S.map (FOC.sextetChar false) ++ List.replicate P '=').filter
      (fun c => (FOC.b64chars false).contains c || c == '=') =
      S.map (FOC.sextetChar false) ++ List.replicate P '=' := by
    rw [List.filter_append]
    congr 1
    · apply List.filter_eq_self.mpr
      intro c hc
      obtain ⟨n, hn, rfl⟩ := List.mem_map.mp hc
      exact keep_sextetChar_false n (hS n hn)
    · apply List.filter_eq_self.mpr
      intro c hc
      rw [List.eq_of_mem_replicate hc]
      decide
  have hdata : (S.map (FOC.sextetChar false) ++ List.replicate P '=').takeWhile
      (fun c => c != '=') = S.map (FOC.sextetChar false) := by
    apply takeWhile_ne_append
    intro c hc
    obtain ⟨n, -, rfl⟩ := List.mem_map.mp hc
    simpa using sextetChar_ne false n
  have hfm : (S.map (FOC.sextetChar false)).filterMap (FOC.sextetIdx false) = S := by
    rw [List.filterMap_map]
    exact filterMap_sextet S hS
  have hl1 : ((S.map (FOC.sextetChar false) ++ List.replicate P '=').length % 4 != 0) =
      false := by
    simp only [List.length_append, List.length_map, List.length_replicate]
    simp only [bne_eq_false_iff_eq]
    omega
  have hl2 : ((S.map (FOC.sextetChar false)).length % 4 == 1) = false := by
    rw [List.length_map]
    simp only [beq_eq_false_iff_ne, ne_eq]
    exact hmod
  simp only [FOC.pyB64decode, htl, hfilter, hdata, hfm, hl1, hl2, Bool.false_eq_true,
    if_false]

/-- C9 amended: the base64 helpers round-trip for every byte string
whose unpadded URL-safe encoding contains a number of URL-safe-specific
characters (`-`/`_`) that is zero or not a multiple of four. In the
zero case the standard-alphabet decode that `_b64decode` tries first
succeeds and agrees; otherwise it discards those characters, fails the
multiple-of-four length check, and the URL-safe fallback decodes the
re-padded encoding correctly. -/
theorem C9_b64_roundtrip_amended (bs : List Nat) (hb : ∀ x ∈ bs, x < 256)
    (hk : FOC.kcount bs = 0 ∨ FOC.kcount bs % 4 ≠ 0) :
    FOC._b64decode (FOC._b64encode bs) = some bs := by
  have hS := sextets_lt bs hb
  have hmod := sextets_len_mod1 bs
  have hrt := sextets_roundtrip bs hb
  have hlenmk : (String.mk ((FOC.bytesToSextets bs).map (FOC.sextetChar true))).length =
      (FOC.bytesToSextets bs).length := by
    show ((FOC.bytesToSextets bs).map (FOC.sextetChar true)).length = _
    exact List.length_map _ _
  have hpad : FOC._b64encode bs ++
      String.mk (List.replicate ((4 - (FOC._b64encode bs).length % 4) % 4) '=') =
      String.mk ((FOC.bytesToSextets bs).map (FOC.sextetChar true) ++
        List.replicate ((4 - (FOC.bytesToSextets bs).length % 4) % 4) '=') := by
    rw [b64encode_eq, hlenmk]
    rfl
  rcases hk with hk0 | hk4
  · -- no URL-safe-specific characters: the standard decode path succeeds
    have hall : ∀ n ∈ FOC.bytesToSextets bs, n < 62 := by
      intro n hn
      by_contra hge
      have hmem : n ∈ (FOC.bytesToSextets bs).filter (fun n => decide (62 ≤ n)) := by
        rw [List.mem_filter]
        exact ⟨hn, by simpa using Nat.le_of_not_lt hge⟩
      unfold FOC.kcount at hk0
      rw [List.length_eq_zero] at hk0
      rw [hk0] at hmem
      exact absurd hmem (List.not_mem_nil n)
    have hmapeq : (FOC.bytesToSextets bs).map (FOC.sextetChar true) =
        (FOC.bytesToSextets bs).map (FOC.sextetChar false) :=
      List.map_congr_left (fun n hn => sextetChar_agree n (hall n hn))
    simp only [FOC._b64decode]
    rw [hpad, hmapeq,
      pyB64decode_encoded _ _ hS (by omega) hmod, hrt]
  · -- the standard decode discards a positive multiple of four characters
    -- and raises on the length check; the URL-safe fallback decodes correctly
    unfold FOC.kcount at hk4
    have hM := filter_lt62_add_filter_ge62 (FOC.bytesToSextets bs)
    have hfil1 : (((FOC.bytesToSextets bs).map (FOC.sextetChar true)).filter
        (fun c => (FOC.b64chars false).contains c || c == '=')) =
        ((FOC.bytesToSextets bs).filter (fun n => decide (n < 62))).map
          (FOC.sextetChar true) := by
      rw [List.filter_map]
      congr 1
      apply List.filter_congr
      intro n hn
      show ((FOC.b64chars false).contains (FOC.sextetChar true n) ||
        FOC.sextetChar true n == '=') = decide (n < 62)
      exact keep_sextetChar_true n (hS n hn)
    have hfil2 : (List.replicate ((4 - (FOC.bytesToSextets bs).length % 4) % 4) '=').filter
        (fun c => (FOC.b64chars false).contains c || c == '=') =
        List.replicate ((4 - (FOC.bytesToSextets bs).length % 4) % 4) '=' := by
      apply List.filter_eq_self.mpr
      intro c hc
      rw [List.eq_of_mem_replicate hc]
      decide
    have hcond : ((((FOC.bytesToSextets bs).filter (fun n => decide (n < 62))).map
        (FOC.sextetChar true) ++
        List.replicate ((4 - (FOC.bytesToSextets bs).length % 4) % 4) '=').length % 4 != 0) =
        true := by
      simp only [List.length_append, List.length_map, List.length_replicate]
      rw [bne_iff_ne]
      omega
    have hnone : FOC.pyB64decode
        (String.mk ((FOC.bytesToSextets bs).map (FOC.sextetChar true) ++
          List.replicate ((4 - (FOC.bytesToSextets bs).length % 4) % 4) '=')) = none := by
      have htl2 : (String.mk ((FOC.bytesToSextets bs).map (FOC.sextetChar true) ++
          List.replicate ((4 - (FOC.bytesToSextets bs).length % 4) % 4) '=')).toList =
          (FOC.bytesToSextets bs).map (FOC.sextetChar true) ++
          List.replicate ((4 - (FOC.bytesToSextets bs).length % 4) % 4) '=' := rfl
      simp only [FOC.pyB64decode, htl2, List.filter_append, hfil1, hfil2, hcond, if_true]
    have htrans : ((FOC.bytesToSextets bs).map (FOC.sextetChar true) ++
        List.replicate ((4 - (FOC.bytesToSextets bs).length % 4) % 4) '=').map
          FOC.urlsafeTranslate =
        (FOC.bytesToSextets bs).map (FOC.sextetChar false) ++
        List.replicate ((4 - (FOC.bytesToSextets bs).length % 4) % 4) '=' := by
      rw [List.map_append, List.map_map, List.map_replicate]
      congr 1
      · apply List.map_congr_left
        intro n hn
        show FOC.urlsafeTranslate (FOC.sextetChar true n) = FOC.sextetChar false n
        exact translate_sextetChar n (hS n hn)
    simp only [FOC._b64decode]
    rw [hpad, hnone]
    show FOC.pyUrlsafeB64decode _ = _
    unfold FOC.pyUrlsafeB64decode
    rw [show (String.mk ((FOC.bytesToSextets bs).map (FOC.sextetChar true) ++
        List.replicate ((4 - (FOC.bytesToSextets bs).length % 4) % 4) '=')).toList =
        (FOC.bytesToSextets bs).map (FOC.sextetChar true) ++
        List.replicate ((4 - (FOC.bytesToSextets bs).length % 4) % 4) '=' from rfl]
    rw [htrans, pyB64decode_encoded _ _ hS (by omega) hmod, hrt]

/-- C9 fails as stated: for `b'\x00\x00\x00\xff\xff\xff'` the
URL-safe encoding is `"AAAA____"`; the standard-alphabet
`base64.b64decode` (`validate=False`) that `_b64decode` tries first
discards the four `_` characters, leaving `"AAAA"`, which decodes
"successfully" to `b'\x00\x00\x00'` — so the round trip silently
returns the wrong bytes instead of the input. -/
theorem C9_counterexample :
    FOC._b64decode (FOC._b64encode [0, 0, 0, 255, 255, 255]) = some [0, 0, 0] ∧
    ([0, 0, 0] : List Nat) ≠ [0, 0, 0, 255, 255, 255] :=
  ⟨by decide, by decide⟩

/-- C9 witness: the amended round trip at a concrete byte string. -/
theorem C9_witness :
    FOC._b64decode (FOC._b64encode [1, 2, 3]) = some [1, 2, 3] :=
  C9_b64_roundtrip_amended [1, 2, 3] (by decide) (Or.inl (by decide))
